import Mathlib

/-
Verification development for the LinkGuard risk-scoring core.

Shallow embedding of:
  - backend/app/services/url_analysis.py   (URL normalizer, host validation, URL rules)
  - backend/app/services/sender_analysis.py (sender heuristics)
  - backend/app/api/analyze.py             (email verdict aggregation endpoint)

Python strings are modelled as `List Char`.  Behaviour of the CPython
standard-library pieces the code calls (`urllib.parse.urlparse`,
`urllib.parse.parse_qs`, `ipaddress.ip_address`, `str.strip`, `str.lower`)
is embedded from the CPython semantics (3.11-era), restricted to the
ASCII-relevant behaviour the heuristics depend on; non-ASCII-only
divergences (Unicode case folding, Unicode whitespace, NFKC netloc checks)
are noted at the definitions they would affect.
-/

namespace LinkGuard

/-- Python strings are modelled as lists of characters. -/
abbrev Str := List Char

/-- Coerce a Lean string literal to the model's string type. -/
def str (s : String) : Str := s.data

/-- ASCII whitespace set stripped by Python `str.strip()` (Unicode
whitespace beyond ASCII is not modelled; all inputs of interest are ASCII). -/
def pyIsSpace (c : Char) : Bool :=
  c = ' ' || c = '\t' || c = '\n' || c = '\r' || c = '\x0b' || c = '\x0c'

/-- Python `str.strip()` (ASCII whitespace). -/
def pyStrip (s : Str) : Str :=
  ((s.dropWhile pyIsSpace).reverse.dropWhile pyIsSpace).reverse

/-- Python `str.lower()` (ASCII case mapping; Unicode-only differences not modelled). -/
def pyLower (s : Str) : Str := s.map Char.toLower

/-- Python `str.upper()` (ASCII case mapping). -/
def pyUpper (s : Str) : Str := s.map Char.toUpper

/-- Python `needle in hay` substring test. -/
def strContains : Str → Str → Bool
  | hay, needle =>
    if needle.isPrefixOf hay then true
    else match hay with
      | [] => false
      | _ :: t => strContains t needle

/-- Python `s.split(sep)` for a single-character separator (no maxsplit). -/
def pySplit (sep : Char) : Str → List Str
  | [] => [[]]
  | c :: t =>
    let r := pySplit sep t
    if c = sep then [] :: r
    else
      match r with
      | [] => [[c]]
      | h :: t2 => (c :: h) :: t2

/-- Python `s.rsplit(ch, 1)[-1]`: the substring after the last occurrence of
`ch` (the whole string when `ch` is absent). -/
def afterLast (ch : Char) (s : Str) : Str :=
  (s.reverse.takeWhile (fun c => c ≠ ch)).reverse

/-- Python `s.partition(ch)` restricted to what the code needs: the part
before the first `ch`, and (when found) the part after it. -/
def partitionFirst (ch : Char) (s : Str) : Str × Option Str :=
  let pre := s.takeWhile (fun c => c ≠ ch)
  if pre.length = s.length then (pre, none) else (pre, some (s.drop (pre.length + 1)))

/-- Decimal digits to a natural number (used for octet values). -/
def digitsToNat (s : Str) : Nat :=
  s.foldl (fun n c => 10 * n + (c.toNat - 48)) 0

/-- Hexadecimal digit test (both cases), as in CPython `ipaddress`. -/
def isHexDigitCh (c : Char) : Bool :=
  c.isDigit || ('a' ≤ c && c ≤ 'f') || ('A' ≤ c && c ≤ 'F')

/-! ### `ipaddress.ip_address` validity (CPython) -/

/-- CPython `IPv4Address._parse_octet`: decimal digits only, at most 3 of
them, no leading zero, value at most 255. -/
def parseOctetOk (s : Str) : Bool :=
  if s = [] then false
  else if ¬ s.all Char.isDigit then false
  else if s.length > 3 then false
  else if s.head? = some '0' && s.length > 1 then false
  else digitsToNat s ≤ 255

/-- CPython `IPv4Address` textual validity: exactly four valid octets. -/
def is_ipv4 (s : Str) : Bool :=
  match pySplit '.' s with
  | [a, b, c, d] => parseOctetOk a && parseOctetOk b && parseOctetOk c && parseOctetOk d
  | _ => false

/-- CPython `IPv6Address._parse_hextet`: 1 to 4 hex digits. -/
def parseHextetOk (s : Str) : Bool :=
  s ≠ [] && s.all isHexDigitCh && s.length ≤ 4

/-- CPython `IPv6Address._ip_int_from_string` validity on the colon-separated
parts (after any trailing embedded IPv4 has been replaced by two hextets). -/
def ipv6PartsOk (parts : List Str) : Bool :=
  let n := parts.length
  if n > 9 then false
  else
    let interior := (parts.drop 1).dropLast
    match interior.findIdx? (fun p => p = []) with
    | some j =>
      -- at most one '::'
      if (interior.drop (j + 1)).any (fun p => p = []) then false
      else
        let skip := j + 1
        let headEmpty := parts.head? = some ([] : Str)
        let lastEmpty := parts.getLast? = some ([] : Str)
        -- a leading ':' is only permitted as part of a leading '::'
        if headEmpty && skip ≠ 1 then false
        else if lastEmpty && skip ≠ n - 2 then false
        else
          let hi := if headEmpty then 0 else skip
          let lo := if lastEmpty then 0 else n - skip - 1
          if hi + lo ≥ 8 then false
          else (parts.take hi).all parseHextetOk && (parts.drop (n - lo)).all parseHextetOk
    | none =>
      n = 8 && parts.head? ≠ some ([] : Str) && parts.getLast? ≠ some ([] : Str)
        && parts.all parseHextetOk

/-- CPython `IPv6Address` textual validity, without a zone id. -/
def is_ipv6_core (s : Str) : Bool :=
  let parts := pySplit ':' s
  if parts.length < 3 then false
  else
    match parts.getLast? with
    | some last =>
      if last.contains '.' then
        if is_ipv4 last then ipv6PartsOk (parts.dropLast ++ [str "0", str "0"])
        else false
      else ipv6PartsOk parts
    | none => false

/-- CPython `IPv6Address` textual validity including an optional `%zone` id. -/
def is_ipv6 (s : Str) : Bool :=
  match partitionFirst '%' s with
  | (addr, none) => is_ipv6_core addr
  | (addr, some scope) => scope ≠ [] && ¬ scope.contains '%' && is_ipv6_core addr

/-- `url_analysis._is_ip_host`: `ipaddress.ip_address(host)` succeeds. -/
def _is_ip_host (host : Str) : Bool :=
  is_ipv4 host || is_ipv6 host

/-! ### `urllib.parse.urlparse` (CPython 3.11) -/

/-- The result of `urlsplit`/`urlparse` restricted to the fields the
repository reads (`hostname` is derived from `netloc` below). -/
structure ParseResult where
  scheme : Str
  netloc : Str
  path : Str
  query : Str
deriving DecidableEq

/-- CPython `scheme_chars`: ASCII letters, digits, `+`, `-`, `.`. -/
def isSchemeChar (c : Char) : Bool :=
  c.isAlpha || c.isDigit || c = '+' || c = '-' || c = '.'

/-- CPython `urlsplit` scheme recognition: split at the first `:` when the
prefix is a plausible scheme (first char an ASCII letter, rest scheme chars). -/
def splitScheme (url : Str) : Str × Str :=
  match url.findIdx? (fun c => c = ':') with
  | some i =>
    if 0 < i && (url.take i).all isSchemeChar
        && (match url.head? with | some c => c.isAlpha | none => false) then
      (pyLower (url.take i), url.drop (i + 1))
    else ([], url)
  | none => ([], url)

/-- CPython `_check_bracketed_host` IPvFuture form: `v`, one or more hex
digits, a dot, then a non-empty remainder (`\x5cAv[a-fA-F0-9]+\x5c..+\x5cZ`,
where `.` does not match a newline). -/
def vFutureOk (s : Str) : Bool :=
  match s with
  | 'v' :: rest =>
    match rest.findIdx? (fun c => c = '.') with
    | some i =>
      0 < i && (rest.take i).all isHexDigitCh && i + 1 < rest.length
        && ¬ (rest.drop (i + 1)).contains '\n'
    | none => false
  | _ => false

/-- CPython 3.11 `_check_bracketed_host`: an IPvFuture literal, or a valid
IP address that is not IPv4 (i.e. a valid IPv6 literal). -/
def bracketedHostOk (s : Str) : Bool :=
  if s.head? = some 'v' then vFutureOk s else is_ipv6 s

/-- CPython `urlsplit` (3.11 behaviour), returning `none` where the Python
function raises `ValueError`.  Tab/CR/LF are removed first
(`_UNSAFE_URL_BYTES_TO_REMOVE`); the NFKC `_checknetloc` check only affects
non-ASCII netlocs and is not modelled. -/
def urlsplitM (url0 : Str) : Option ParseResult :=
  let url := url0.filter (fun c => c ≠ '\t' && c ≠ '\r' && c ≠ '\n')
  let sr := splitScheme url
  let scheme := sr.1
  let rest := sr.2
  let nr :=
    if (str "//").isPrefixOf rest then
      let after := rest.drop 2
      let nl := after.takeWhile (fun c => c ≠ '/' && c ≠ '?' && c ≠ '#')
      (nl, after.drop nl.length)
    else (([] : Str), rest)
  let netloc := nr.1
  let rest2 := nr.2
  if (netloc.contains '[' && ¬ netloc.contains ']')
      || (netloc.contains ']' && ¬ netloc.contains '[') then none
  else if netloc.contains '[' && netloc.contains ']'
      && ¬ bracketedHostOk ((partitionFirst ']'
            ((partitionFirst '[' netloc).2.getD [])).1) then none
  else
    let fr := partitionFirst '#' rest2
    let beforeFrag := fr.1
    let qr := partitionFirst '?' beforeFrag
    some { scheme := scheme, netloc := netloc, path := qr.1, query := (qr.2).getD [] }

/-- CPython `SplitResult.hostname`: the part of `netloc` after the last `@`,
then either the bracketed portion or the part before the first `:`;
`None` when empty, lowercased otherwise (lowercasing is applied by the
caller in `analyze_url`, so here the raw hostname is returned). -/
def hostnameOf (netloc : Str) : Option Str :=
  let hostinfo := afterLast '@' netloc
  let br := partitionFirst '[' hostinfo
  let hostname :=
    match br.2 with
    | some bracketed => (partitionFirst ']' bracketed).1
    | none => (partitionFirst ':' hostinfo).1
  if hostname = [] then none else some hostname

/-- CPython `uses_params`: schemes for which `urlparse` splits `;params`
from the last path segment. -/
def uses_params : List Str :=
  [str "", str "ftp", str "hdl", str "prospero", str "http", str "imap",
   str "https", str "shttp", str "rtsp", str "rtspu", str "sip", str "sips",
   str "mms", str "sftp", str "tel"]

/-- CPython `_splitparams`, returning only the path part: parameters after
the first `;` in the last `/`-segment are dropped. -/
def splitparamsPath (url : Str) : Str :=
  if url.contains '/' then
    let lastSlash := url.length - 1 - (url.reverse.takeWhile (fun c => c ≠ '/')).length
    let afterSlash := url.drop lastSlash
    match afterSlash.findIdx? (fun c => c = ';') with
    | some i => url.take (lastSlash + i)
    | none => url
  else (partitionFirst ';' url).1

/-- CPython `urlparse` restricted to the fields the repository reads:
`urlsplit`, plus the params split on the path for `uses_params` schemes. -/
def urlparseM (url : Str) : Option ParseResult :=
  match urlsplitM url with
  | none => none
  | some p =>
    if uses_params.contains p.scheme && p.path.contains ';' then
      some { p with path := splitparamsPath p.path }
    else some p

/-! ### `app/services/url_analysis.py` -/

/-- `url_analysis.SUSPICIOUS_TLDS` (a Python set literal; pinned here to the
source literal's order — only membership is ever used). -/
def SUSPICIOUS_TLDS : List Str :=
  [str "zip", str "mov", str "top", str "xyz", str "click", str "country",
   str "stream", str "gq", str "tk"]

/-- `url_analysis.BRANDS` (set literal; only membership is used). -/
def BRANDS : List Str :=
  [str "google", str "paypal", str "microsoft", str "apple", str "amazon"]

/-- `url_analysis.SUSPICIOUS_PATH_KEYWORDS` (set literal).  The source
iterates this set with unspecified order and stops at the first match; the
order is pinned here to the source literal's order. -/
def SUSPICIOUS_PATH_KEYWORDS : List Str :=
  [str "login", str "signin", str "sign-in", str "verify", str "verification",
   str "password", str "reset", str "update", str "secure", str "account",
   str "billing", str "bank", str "wallet", str "confirm"]

/-- `url_analysis.RiskCategory` (a `str` enum). -/
inductive RiskCategory where
  | SAFE
  | SUSPICIOUS
  | DANGEROUS
deriving DecidableEq

/-- The `.value` of a `RiskCategory` member. -/
def RiskCategory.value : RiskCategory → Str
  | .SAFE => str "SAFE"
  | .SUSPICIOUS => str "SUSPICIOUS"
  | .DANGEROUS => str "DANGEROUS"

/-- `url_analysis._ensure_scheme`. -/
def _ensure_scheme (raw : Str) : Str :=
  let raw := pyStrip raw
  if ¬ strContains raw (str "://") then str "https://" ++ raw else raw

/-- `url_analysis._HOST_RE` (`^[a-z0-9.-]+$`) applied with `re.match`.
Python's `$` also matches just before a single trailing newline, which is
modelled for fidelity (a host reaching this check never contains a newline,
since `urlsplit` strips them). -/
def _HOST_RE_matches (s : Str) : Bool :=
  let core := fun (t : Str) =>
    t ≠ [] && t.all (fun c => ('a' ≤ c && c ≤ 'z') || c.isDigit || c = '.' || c = '-')
  core s || (s.getLast? = some '\n' && core s.dropLast)

/-- `url_analysis._is_plausible_host`. -/
def _is_plausible_host (host : Str) : Bool :=
  if host = [] then false
  else if host.contains ' ' then false
  else if ¬ _HOST_RE_matches host then false
  else if ¬ host.contains '.' then _is_ip_host host
  else true

/-- `url_analysis._get_tld`. -/
def _get_tld (host : Str) : Option Str :=
  let parts := pySplit '.' host
  if parts.length < 2 then none else some (parts.getLastD [])

/-- `url_analysis._subdomain_count`. -/
def _subdomain_count (host : Str) : Nat :=
  let parts := pySplit '.' host
  if parts.length ≤ 2 then 0 else parts.length - 2

/-- `url_analysis._looks_like_typosquat`: returns the message when the rule
fires (the source returns `(True, msg)` with `msg` always a non-empty
string, or `(False, None)`). -/
def _looks_like_typosquat (host : Str) : Option Str :=
  let parts := pySplit '.' host
  if parts.length < 2 then none
  else
    let sld := parts.getD (parts.length - 2) []
    let normalized := sld.map (fun c =>
      if c = '0' then 'o' else if c = '1' then 'l' else if c = '3' then 'e' else c)
    if BRANDS.contains normalized && sld ≠ normalized then
      some (str "Possible typosquatting of brand \x27" ++ normalized ++ str "\x27")
    else none

/-- The shape of the dict returned by `url_analysis.analyze_url`. -/
structure UrlResult where
  risk_category : Str
  score : Int
  explanations : List Str
  normalized_url : Str
  host : Option Str
deriving DecidableEq

/-- IP-host rule of `analyze_url` (score increment and appended explanations). -/
def rule_ip (host : Str) : Int × List Str :=
  if _is_ip_host host then
    (70, [str "Host is an IP address (common in phishing)"])
  else (0, [])

/-- Suspicious-TLD rule of `analyze_url` (`if tld and tld in SUSPICIOUS_TLDS`;
a `None` or empty tld is falsy). -/
def rule_tld (host : Str) : Int × List Str :=
  match _get_tld host with
  | some tld =>
    if tld ≠ [] && SUSPICIOUS_TLDS.contains tld then
      (25, [str "Suspicious TLD: ." ++ tld])
    else (0, [])
  | none => (0, [])

/-- Many-subdomains rule of `analyze_url`. -/
def rule_subdomains (host : Str) : Int × List Str :=
  let n := _subdomain_count host
  if n ≥ 4 then (25, [str "Many subdomains (" ++ Nat.toDigits 10 n ++ str ")"])
  else (0, [])

/-- Typosquatting rule of `analyze_url` (`if is_typo and msg`). -/
def rule_typosquat (host : Str) : Int × List Str :=
  match _looks_like_typosquat host with
  | some msg => (30, [msg])
  | none => (0, [])

/-- Suspicious-path-keyword rule of `analyze_url`: only fires on a non-empty
path, for the first matching keyword, with a `break` after the match. -/
def rule_path (path : Str) : Int × List Str :=
  if path = [] then (0, [])
  else
    match SUSPICIOUS_PATH_KEYWORDS.find? (fun kw => strContains path kw) with
    | some kw => (30, [str "Suspicious path keyword: \x27" ++ kw ++ str "\x27"])
    | none => (0, [])

/-- The non-sentinel tail of `analyze_url` (rule accumulation, category
mapping from the pre-clamp sum, clamping with `min(score, 100)`). -/
def analyzeMain (normalized_url host path : Str) : UrlResult :=
  let score : Int := (rule_ip host).1 + (rule_tld host).1 + (rule_subdomains host).1
      + (rule_typosquat host).1 + (rule_path path).1
  let explanations := (rule_ip host).2 ++ (rule_tld host).2 ++ (rule_subdomains host).2
      ++ (rule_typosquat host).2 ++ (rule_path path).2
  let cat : RiskCategory :=
    if score ≥ 60 then .DANGEROUS else if score ≥ 25 then .SUSPICIOUS else .SAFE
  { risk_category := cat.value,
    score := min score 100,
    explanations := if explanations = [] then [str "No suspicious patterns detected"] else explanations,
    normalized_url := normalized_url,
    host := some host }

/-- `url_analysis.analyze_url`.  The Python `try`/`except` is modelled by
the `Option` result of `urlparseM`: the only fallible step inside the `try`
is `urlparse` (everything else is total), and the `except` branch rebuilds
`normalized = _ensure_scheme(url)`, which is the same total value. -/
def analyze_url (url : Str) : UrlResult :=
  let normalized_url := _ensure_scheme url
  match urlparseM normalized_url with
  | none =>
    { risk_category := RiskCategory.SUSPICIOUS.value, score := 40,
      explanations := [str "Invalid or unparseable URL"],
      normalized_url := normalized_url, host := none }
  | some parsed =>
    let host := pyLower ((hostnameOf parsed.netloc).getD [])
    let path := pyLower parsed.path
    if host = [] then
      { risk_category := RiskCategory.SUSPICIOUS.value, score := 40,
        explanations := [str "Invalid URL (missing host)"],
        normalized_url := normalized_url, host := none }
    else if ¬ _is_plausible_host host then
      { risk_category := RiskCategory.SUSPICIOUS.value, score := 40,
        explanations := [str "Invalid or unparseable URL"],
        normalized_url := normalized_url, host := none }
    else analyzeMain normalized_url host path

/-! ### `app/services/sender_analysis.py` -/

/-- `sender_analysis.FREE_EMAIL_PROVIDERS` (set literal; only membership is used). -/
def FREE_EMAIL_PROVIDERS : List Str :=
  [str "gmail.com", str "outlook.com", str "hotmail.com", str "live.com",
   str "yahoo.com", str "aol.com", str "icloud.com", str "me.com",
   str "proton.me", str "protonmail.com", str "pm.me", str "gmx.com"]

/-- `sender_analysis.BRAND_TOKENS`: brand token to allowed domains, in dict
insertion order (Python dict iteration order). -/
def BRAND_TOKENS : List (Str × List Str) :=
  [(str "google", [str "google.com"]),
   (str "microsoft", [str "microsoft.com", str "office.com", str "live.com"]),
   (str "paypal", [str "paypal.com"]),
   (str "apple", [str "apple.com", str "icloud.com", str "me.com"]),
   (str "amazon", [str "amazon.com"]),
   (str "docusign", [str "docusign.com"]),
   (str "okta", [str "okta.com"]),
   (str "dropbox", [str "dropbox.com"]),
   (str "linkedin", [str "linkedin.com"]),
   (str "facebook", [str "facebook.com", str "meta.com"]),
   (str "instagram", [str "instagram.com"])]

/-- `sender_analysis.ORGISH_TOKENS` (set literal; only an any-substring test
is used, so the pinned order is irrelevant). -/
def ORGISH_TOKENS : List Str :=
  [str "support", str "helpdesk", str "help", str "security", str "admin",
   str "it", str "billing", str "invoice", str "accounts", str "team",
   str "service", str "customer", str "verification", str "verify",
   str "alert", str "notice"]

/-- `sender_analysis.LEET_MAP` as a character substitution. -/
def LEET_MAP (c : Char) : Char :=
  if c = '0' then 'o' else if c = '1' then 'l' else if c = '3' then 'e'
  else if c = '4' then 'a' else if c = '5' then 's' else if c = '7' then 't'
  else if c = '8' then 'b' else if c = '9' then 'g' else c

/-- `sender_analysis.risk_category_from_score`. -/
def risk_category_from_score (score : Int) : Str :=
  if score ≥ 60 then str "DANGEROUS"
  else if score ≥ 25 then str "SUSPICIOUS"
  else str "SAFE"

/-- `sender_analysis._extract_domain` (`None` and the empty string are both
falsy for the initial `if not email` check). -/
def _extract_domain (email : Option Str) : Str :=
  match email with
  | none => []
  | some e0 =>
    if e0 = [] then []
    else
      let e := pyStrip e0
      if ¬ e.contains '@' then []
      else pyLower (pyStrip (afterLast '@' e))

/-- `sender_analysis._base_domain`. -/
def _base_domain (domain : Str) : Str :=
  let parts := (pySplit '.' domain).filter (fun p => p ≠ [])
  if parts.length ≥ 2 then
    List.intercalate (str ".") (parts.drop (parts.length - 2))
  else domain

/-- Python `\x5cw` word character (ASCII approximation; the regex in the
source is only applied to lowercased display names, ASCII in all inputs of
interest). -/
def wordChar (c : Char) : Bool := c.isAlphanum || c = '_'

/-- Whether one of `ws` matches at the start of `s` with `\x5cb` word
boundaries on both sides, given the character immediately before `s`. -/
def matchWordHere (w : Str) (prev : Option Char) (s : Str) : Bool :=
  w.isPrefixOf s
    && (match prev with | none => true | some c => ¬ wordChar c)
    && (match s.drop w.length with | [] => true | c :: _ => ¬ wordChar c)

/-- `re.search` of the alternation `\x5cb(w1|...|wn)\x5cb` over `s`. -/
def searchWords (ws : List Str) : Option Char → Str → Bool
  | prev, [] => ws.any (fun w => matchWordHere w prev [])
  | prev, c :: t =>
    ws.any (fun w => matchWordHere w prev (c :: t)) || searchWords ws (some c) t

/-- The alternation of `sender_analysis._looks_organizational_display_name`'s
regex `\x5cb(it|security|support|billing|accounts)\x5cb`. -/
def ROLE_WORDS : List Str :=
  [str "it", str "security", str "support", str "billing", str "accounts"]

/-- Python `str.split()` with no argument: split on whitespace runs,
dropping empties. -/
def pySplitWs (s : Str) : List Str :=
  (s.splitOnP pyIsSpace).filter (fun p => p ≠ [])

/-- `sender_analysis._looks_organizational_display_name`. -/
def _looks_organizational_display_name (name : Option Str) : Bool :=
  match name with
  | none => false
  | some nm =>
    if nm = [] then false
    else
      let n := pyLower (pyStrip nm)
      if n = [] then false
      else if n.contains '@' then false
      else if ORGISH_TOKENS.any (fun tok => strContains n tok) then true
      else if (pySplitWs n).length ≥ 2 && searchWords ROLE_WORDS none n then true
      else false

/-- `sender_analysis._find_brand_in_text` (first brand token, in
`BRAND_TOKENS` order, occurring as a substring). -/
def _find_brand_in_text (text : Str) : Option Str :=
  let t := pyLower text
  (BRAND_TOKENS.map Prod.fst).find? (fun b => strContains t b)

/-- `sender_analysis._is_free_provider`. -/
def _is_free_provider (domain : Str) : Bool :=
  FREE_EMAIL_PROVIDERS.contains (pyLower domain)

/-- `sender_analysis._has_punycode`. -/
def _has_punycode (domain : Str) : Bool :=
  strContains (pyLower domain) (str "xn--")

/-- `sender_analysis._looks_like_brand_leetspeak`. -/
def _looks_like_brand_leetspeak (domain : Str) : Option Str :=
  let d := pyLower domain
  if d = [] then none
  else if ¬ d.any Char.isDigit && ¬ _has_punycode d then none
  else
    let label := (pySplit '.' d).headD []
    let normalized := label.map LEET_MAP
    (BRAND_TOKENS.map Prod.fst).find? (fun b => normalized = b && label ≠ b)

/-- The shape of the dict returned by `sender_analysis.analyze_sender`. -/
structure SenderResult where
  score : Int
  risk_category : Str
  explanations : List Str
  signals : List Str
deriving DecidableEq

/-- Rule 1 of `analyze_sender` (Reply-To mismatch): score increment, signal,
explanation. -/
def sender_rule_reply_to (from_domain from_base : Str) (reply_to_domains : List Str) :
    Int × List Str × List Str :=
  if from_domain ≠ [] && reply_to_domains ≠ []
      && reply_to_domains.any (fun d => _base_domain d ≠ from_base) then
    (40, [str "reply_to_mismatch"], [str "Reply-To domain does not match From domain."])
  else (0, [], [])

/-- Rule 2 of `analyze_sender` (free-mail provider with organizational
display name). -/
def sender_rule_free_mail (from_domain : Str) (from_name : Option Str) :
    Int × List Str × List Str :=
  if from_domain ≠ [] && _is_free_provider from_domain
      && _looks_organizational_display_name from_name then
    (15, [str "free_mail_provider"],
     [str "Sender uses a free email provider for an organizational-looking display name."])
  else (0, [], [])

/-- Rule 3 of `analyze_sender` (display-name brand vs sender domain). -/
def sender_rule_brand_mismatch (from_domain : Str) (from_name : Option Str) :
    Int × List Str × List Str :=
  match _find_brand_in_text (from_name.getD []) with
  | some brand =>
    if from_domain ≠ [] then
      let allowed := ((BRAND_TOKENS.find? (fun p => p.1 = brand)).map Prod.snd).getD []
      if ¬ (allowed.map _base_domain).contains (_base_domain from_domain) then
        (15, [str "display_name_domain_mismatch"],
         [str "Display name suggests a brand/organization that doesn\x27t match the sender domain."])
      else (0, [], [])
    else (0, [], [])
  | none => (0, [], [])

/-- Rule 4a of `analyze_sender` (punycode domain). -/
def sender_rule_punycode (from_domain : Str) : Int × List Str × List Str :=
  if from_domain ≠ [] && _has_punycode from_domain then
    (30, [str "punycode_domain"],
     [str "Sender domain contains punycode (xn--), which is sometimes used for lookalike domains."])
  else (0, [], [])

/-- Rule 4b of `analyze_sender` (leetspeak brand lookalike). -/
def sender_rule_lookalike (from_domain : Str) : Int × List Str × List Str :=
  if from_domain ≠ [] && (_looks_like_brand_leetspeak from_domain).isSome then
    (35, [str "lookalike_domain"],
     [str "Sender domain appears to be a lookalike of a well-known brand."])
  else (0, [], [])

/-- `sender_analysis.analyze_sender`. -/
def analyze_sender (from_name from_email : Option Str) (reply_to_emails : List Str) :
    SenderResult :=
  let from_domain := _extract_domain from_email
  let from_base := _base_domain from_domain
  let reply_to_domains :=
    (reply_to_emails.map (fun r => _extract_domain (some r))).filter (fun d => d ≠ [])
  let r1 := sender_rule_reply_to from_domain from_base reply_to_domains
  let r2 := sender_rule_free_mail from_domain from_name
  let r3 := sender_rule_brand_mismatch from_domain from_name
  let r4 := sender_rule_punycode from_domain
  let r5 := sender_rule_lookalike from_domain
  let score0 : Int := r1.1 + r2.1 + r3.1 + r4.1 + r5.1
  let score := max 0 (min score0 100)
  { score := score,
    risk_category := risk_category_from_score score,
    explanations := r1.2.2 ++ r2.2.2 ++ r3.2.2 ++ r4.2.2 ++ r5.2.2,
    signals := r1.2.1 ++ r2.2.1 ++ r3.2.1 ++ r4.2.1 ++ r5.2.1 }

/-! ### `urllib.parse.parse_qs` (only the lookup the dev hook performs) -/

/-- Value of a hex digit character. -/
def hexVal (c : Char) : Nat :=
  if c.isDigit then c.toNat - 48
  else if 'a' ≤ c && c ≤ 'f' then c.toNat - 87
  else c.toNat - 55

/-- CPython `urllib.parse.unquote`, byte-wise: a `%` followed by two hex
digits becomes that byte, an invalid escape is kept literally.  CPython
decodes runs of escaped bytes as UTF-8 with `errors="replace"`; this model
emits one replacement character per non-ASCII byte instead, which agrees
with CPython on all-ASCII results — and membership of the result in the
ASCII dev-hook flag sets is therefore unaffected. -/
def unquoteModel : Str → Str
  | [] => []
  | '%' :: c1 :: c2 :: t =>
    if isHexDigitCh c1 && isHexDigitCh c2 then
      let b := 16 * hexVal c1 + hexVal c2
      (if b < 128 then Char.ofNat b else Char.ofNat 0xFFFD) :: unquoteModel t
    else '%' :: unquoteModel (c1 :: c2 :: t)
  | c :: t => c :: unquoteModel t

/-- CPython `parse_qsl` with the `parse_qs` defaults (`keep_blank_values`
false, separator `&`): blank pairs, pairs without `=`, and pairs with an
empty value are dropped; `+` means space; names and values are unquoted. -/
def parse_qsl_model (qs : Str) : List (Str × Str) :=
  let plusSpace := fun (s : Str) => s.map (fun c => if c = '+' then ' ' else c)
  let pairs := if qs = [] then [] else pySplit '&' qs
  pairs.filterMap (fun nv =>
    if nv = [] then none
    else
      match partitionFirst '=' nv with
      | (_, none) => none
      | (n, some v) =>
        if v = [] then none
        else some (unquoteModel (plusSpace n), unquoteModel (plusSpace v)))

/-- `parse_qs(qs).get(key, [""])[0]`: the first value recorded for `key`. -/
def parse_qs_first (qs key : Str) : Str :=
  match (parse_qsl_model qs).find? (fun p => p.1 = key) with
  | some p => p.2
  | none => []

/-! ### `app/api/analyze.py`: the email scan endpoint -/

/-- The fields of a `url_analysis` service result the endpoint reads
(the dev-hook literals carry no `host` key). -/
structure ServiceResult where
  risk_category : Str
  score : Int
  explanations : List Str
  normalized_url : Str
deriving DecidableEq

/-- Dev-hook flag extraction shared by both endpoints:
`parse_qs(urlparse(url).query)` guarded by `try`/`except`, then
`(qs.get("linkguard_test", [""])[0] or "").lower()`. -/
def devTestFlag (url : Str) : Str :=
  match urlparseM url with
  | none => []
  | some p => pyLower (parse_qs_first p.query (str "linkguard_test"))

/-- The per-link service result in `analyze_email_endpoint`: the dev hook
override, else `analyze_url` (whose model is total, so the endpoint's
defensive `except` fallback with score 50 is unreachable). -/
def serviceResultFor (url : Str) : ServiceResult :=
  let flag := devTestFlag url
  if flag = str "danger" || flag = str "dangerous" then
    { risk_category := str "DANGEROUS", score := 100,
      explanations := [str "Forced DANGEROUS via linkguard_test (dev hook)."],
      normalized_url := url }
  else if flag = str "suspicious" || flag = str "sus" then
    { risk_category := str "SUSPICIOUS", score := 55,
      explanations := [str "Forced SUSPICIOUS via linkguard_test (dev hook)."],
      normalized_url := url }
  else
    let r := analyze_url url
    { risk_category := r.risk_category, score := r.score,
      explanations := r.explanations, normalized_url := r.normalized_url }

/-- One entry of the endpoint's `links` output. -/
structure EmailLinkOut where
  url : Str
  normalized_url : Str
  category : Str
  score : Int
  explanation : Str
  risk_category : Str
  explanations : List Str
deriving DecidableEq

/-- The endpoint's per-link normalization (lines 338-372 of
`app/api/analyze.py`): defensive category normalization, joined
explanation string, and fallbacks. -/
def buildLinkOut (url : Str) : EmailLinkOut :=
  let service := serviceResultFor url
  let rc0 := pyUpper (if service.risk_category = [] then str "SUSPICIOUS" else service.risk_category)
  let rc := if rc0 = str "SAFE" || rc0 = str "SUSPICIOUS" || rc0 = str "DANGEROUS"
    then rc0 else str "SUSPICIOUS"
  let score := service.score
  let explanations := service.explanations
  let joined := List.intercalate (str "; ") (explanations.filter (fun x => x ≠ []))
  let explanation := if joined = [] then str "No explanation available." else joined
  let normalized_url := if service.normalized_url = [] then url else service.normalized_url
  { url := url, normalized_url := normalized_url, category := rc, score := score,
    explanation := explanation, risk_category := rc, explanations := explanations }

/-- The accumulator of the endpoint's per-link loop: worst link score and
risky/dangerous link counts. -/
structure LinkAgg where
  highest : Int
  risky : Nat
  dangerous : Nat
deriving DecidableEq

/-- One step of the loop's accumulator update (lines 374-382). -/
def stepAgg (acc : LinkAgg) (l : EmailLinkOut) : LinkAgg :=
  let h := if l.score > acc.highest then l.score else acc.highest
  if l.risk_category = str "DANGEROUS" then
    { highest := h, risky := acc.risky + 1, dangerous := acc.dangerous + 1 }
  else if l.risk_category = str "SUSPICIOUS" then
    { highest := h, risky := acc.risky + 1, dangerous := acc.dangerous }
  else
    { highest := h, risky := acc.risky, dangerous := acc.dangerous }

/-- The loop's accumulator over all appended links. -/
def aggLinks (ls : List EmailLinkOut) : LinkAgg :=
  ls.foldl stepAgg { highest := 0, risky := 0, dangerous := 0 }

/-- The synthesized link-summary sentence (lines 403-411). -/
def linkSummarySentence (risky dangerous : Nat) : Str :=
  if risky > 0 then
    if dangerous > 0 then
      Nat.toDigits 10 dangerous ++ str " dangerous link(s) and "
        ++ Nat.toDigits 10 (risky - dangerous) ++ str " suspicious link(s) detected."
    else Nat.toDigits 10 risky ++ str " suspicious link(s) detected."
  else str "No suspicious links detected."

/-- The overall explanations as built by lines 398-411: the sender's first
explanation when present, then always exactly one synthesized sentence. -/
def overallExplanationsRaw (sender_explanations : List Str) (risky dangerous : Nat) :
    List Str :=
  (match sender_explanations with | [] => [] | e :: _ => [e])
    ++ [linkSummarySentence risky dangerous]

/-- Lines 398-415 including the `if not overall_explanations` fallback guard. -/
def overallExplanations (sender_explanations : List Str) (risky dangerous : Nat) :
    List Str :=
  let oe := overallExplanationsRaw sender_explanations risky dangerous
  if oe = [] then [str "No suspicious signals detected."] else oe

/-- The endpoint's input model (`AnalyzeEmailIn`; `source` only feeds
logging). -/
structure AnalyzeEmailIn where
  links : List Str
  source : Option Str := none
  from_name : Option Str := none
  from_email : Option Str := none
  reply_to_emails : Option (List Str) := none
deriving DecidableEq

/-- The endpoint's output model (`AnalyzeEmailOut` minus `org_id` and
`request_id`, which are request metadata independent of the analysis). -/
structure EmailOut where
  category : Str
  score : Int
  explanation : Str
  risk_category : Str
  explanations : List Str
  sender : SenderResult
  links : List EmailLinkOut
deriving DecidableEq

/-- An `HTTPException` raised by the endpoint. -/
structure HttpError where
  status : Nat
  detail : Str
deriving DecidableEq

/-- The `HTTPException(400, "links is required")` of line 267. -/
def emailErrNoLinks : HttpError := { status := 400, detail := str "links is required" }

/-- The `HTTPException(400, ...)` of line 385. -/
def emailErrNoUsable : HttpError :=
  { status := 400, detail := str "links must include at least one non-empty url" }

/-- `analyze_email_endpoint` (app/api/analyze.py, lines 256-446), restricted
to the computation of the response fields: event logging is fire-and-forget
and never affects the result.  The per-link loop (skip empty-after-strip
links, build the per-link output, update the accumulator) is modelled as a
`filterMap` followed by a left fold over the same list in the same order. -/
def analyze_email (payload : AnalyzeEmailIn) : Except HttpError EmailOut :=
  let links_in := payload.links
  if links_in.length = 0 then .error emailErrNoLinks
  else
    let sender_res := analyze_sender payload.from_name payload.from_email
      (payload.reply_to_emails.getD [])
    let sender_score := sender_res.score
    let sender_rc := pyUpper (if sender_res.risk_category = [] then str "SAFE"
      else sender_res.risk_category)
    let sender_explanations := sender_res.explanations
    let sender_signals := sender_res.signals
    let per_link := links_in.filterMap (fun raw =>
      let url := pyStrip raw
      if url = [] then none else some (buildLinkOut url))
    if per_link = [] then .error emailErrNoUsable
    else
      let agg := aggLinks per_link
      let overall_score := max sender_score agg.highest
      let overall_rc :=
        if overall_score ≥ 60 then str "DANGEROUS"
        else if overall_score ≥ 25 then str "SUSPICIOUS"
        else str "SAFE"
      let oe := overallExplanations sender_explanations agg.risky agg.dangerous
      .ok { category := overall_rc, score := overall_score,
            explanation := oe.headD [],
            risk_category := overall_rc,
            explanations := oe.take 3,
            sender := { score := sender_score, risk_category := sender_rc,
                        explanations := sender_explanations, signals := sender_signals },
            links := per_link }

/-- The sentinel dict literal that `analyze_url` returns on each invalid
path (score 40, category SUSPICIOUS, host absent). -/
def urlSentinel (msg normalized_url : Str) : UrlResult :=
  { risk_category := RiskCategory.SUSPICIOUS.value, score := 40,
    explanations := [msg], normalized_url := normalized_url, host := none }

/-! ### Helper lemmas -/

/-- Clamping with `min(score, 100)` commutes with the threshold mapping. -/
theorem risk_category_from_score_min100 (s : Int) :
    risk_category_from_score (min s 100) = risk_category_from_score s := by
  simp only [risk_category_from_score, Int.min_def]
  split_ifs <;> first | rfl | omega

theorem rule_ip_fst (h : Str) : (rule_ip h).1 = 0 ∨ (rule_ip h).1 = 70 := by
  unfold rule_ip; split <;> simp

theorem rule_tld_fst (h : Str) : (rule_tld h).1 = 0 ∨ (rule_tld h).1 = 25 := by
  unfold rule_tld; repeat' split <;> simp

theorem rule_subdomains_fst (h : Str) :
    (rule_subdomains h).1 = 0 ∨ (rule_subdomains h).1 = 25 := by
  simp only [rule_subdomains]; split <;> simp

theorem rule_typosquat_fst (h : Str) :
    (rule_typosquat h).1 = 0 ∨ (rule_typosquat h).1 = 30 := by
  unfold rule_typosquat; split <;> simp

theorem rule_path_fst (p : Str) : (rule_path p).1 = 0 ∨ (rule_path p).1 = 30 := by
  unfold rule_path; repeat' split <;> simp

/-- The invariant of the non-sentinel branch of `analyze_url`: the clamped
score is in `[0, 100]` and the category equals the threshold mapping of the
clamped score, even though the source computes it from the pre-clamp sum. -/
theorem analyzeMain_inv (n h p : Str) :
    0 ≤ (analyzeMain n h p).score ∧ (analyzeMain n h p).score ≤ 100 ∧
      (analyzeMain n h p).risk_category
        = risk_category_from_score (analyzeMain n h p).score := by
  have h1 := rule_ip_fst h
  have h2 := rule_tld_fst h
  have h3 := rule_subdomains_fst h
  have h4 := rule_typosquat_fst h
  have h5 := rule_path_fst p
  simp only [analyzeMain]
  refine ⟨?_, ?_, ?_⟩
  · rw [Int.min_def]; split_ifs <;> omega
  · rw [Int.min_def]; split_ifs <;> omega
  · rw [risk_category_from_score_min100]
    simp only [risk_category_from_score, RiskCategory.value]
    split_ifs <;> rfl

/-- Claim C1: for every input string, the verdict returned by `analyze_url`
has a score in `[0, 100]`, and its `risk_category` is exactly the threshold
function of the returned score (`DANGEROUS` iff score `≥ 60`, `SUSPICIOUS`
iff `25 ≤ score < 60`, `SAFE` otherwise).  This holds on every return path,
including the sentinel outcomes, even though the code computes the category
from the pre-clamp rule sum and clamps afterwards with `min(score, 100)`. -/
theorem C1_analyze_url_score_category (url : Str) :
    0 ≤ (analyze_url url).score ∧ (analyze_url url).score ≤ 100 ∧
      (analyze_url url).risk_category
        = risk_category_from_score ((analyze_url url).score) := by
  rcases hp : urlparseM (_ensure_scheme url) with _ | parsed
  · simp only [analyze_url]
    rw [hp]
    norm_num [risk_category_from_score, RiskCategory.value]
  · simp only [analyze_url]
    rw [hp]
    dsimp only
    split_ifs with hhost hplas
    · norm_num [risk_category_from_score, RiskCategory.value]
    · exact analyzeMain_inv _ _ _
    · norm_num [risk_category_from_score, RiskCategory.value]

/-- Claim C3: `analyze_url` never raises (it is a total function of its
input in this embedding, every Python-side exception being converted to the
`Option` failure of `urlparseM`), and each invalid-input path returns the
specified sentinel: parse failure or implausible host give score 40,
category `SUSPICIOUS`, host `None` and explanation
"Invalid or unparseable URL"; an absent host gives the same sentinel with
explanation "Invalid URL (missing host)". -/
theorem C3_invalid_inputs_sentinel (url : Str) :
    (urlparseM (_ensure_scheme url) = none →
      analyze_url url = urlSentinel (str "Invalid or unparseable URL") (_ensure_scheme url)) ∧
    (∀ p, urlparseM (_ensure_scheme url) = some p →
      pyLower ((hostnameOf p.netloc).getD []) = [] →
      analyze_url url = urlSentinel (str "Invalid URL (missing host)") (_ensure_scheme url)) ∧
    (∀ p, urlparseM (_ensure_scheme url) = some p →
      pyLower ((hostnameOf p.netloc).getD []) ≠ [] →
      _is_plausible_host (pyLower ((hostnameOf p.netloc).getD [])) = false →
      analyze_url url = urlSentinel (str "Invalid or unparseable URL") (_ensure_scheme url)) := by
  refine ⟨fun hp => ?_, fun p hp hhost => ?_, fun p hp hhost hplas => ?_⟩
  · simp only [analyze_url]
    rw [hp]
    rfl
  · simp only [analyze_url]
    rw [hp]
    dsimp only
    rw [if_pos hhost]
    rfl
  · simp only [analyze_url]
    rw [hp]
    dsimp only
    rw [if_neg hhost]
    simp only [hplas]
    simp [urlSentinel]

/-- Witness for C3: each of the three hypotheses is realized at a concrete
input — unbalanced IPv6 bracket (parse failure), empty input (absent host),
and an underscore host (implausible host). -/
theorem C3_invalid_inputs_sentinel_witness :
    analyze_url (str "http://[::")
        = urlSentinel (str "Invalid or unparseable URL") (_ensure_scheme (str "http://[::")) ∧
    analyze_url (str "")
        = urlSentinel (str "Invalid URL (missing host)") (_ensure_scheme (str "")) ∧
    analyze_url (str "http://exa_mple.com/")
        = urlSentinel (str "Invalid or unparseable URL") (_ensure_scheme (str "http://exa_mple.com/")) :=
  ⟨(C3_invalid_inputs_sentinel (str "http://[::")).1 rfl,
   (C3_invalid_inputs_sentinel (str "")).2.1 _ rfl rfl,
   (C3_invalid_inputs_sentinel (str "http://exa_mple.com/")).2.2 _ rfl
     (by decide) (by decide)⟩

theorem pySplit_ne_nil (sep : Char) (s : Str) : pySplit sep s ≠ [] := by
  cases s with
  | nil => simp [pySplit]
  | cons c t =>
    simp only [pySplit]
    split
    · simp
    · split <;> simp

theorem pySplit_eq_single {sep : Char} {s : Str} (h : ¬ sep ∈ s) :
    pySplit sep s = [s] := by
  induction s with
  | nil => rfl
  | cons c t ih =>
    simp only [List.mem_cons, not_or] at h
    simp only [pySplit]
    rw [if_neg (fun hc => h.1 hc.symm)]
    rw [ih h.2]

theorem mem_pySplit_of_mem (sep : Char) {c : Char} :
    ∀ {s : Str}, c ∈ s → c = sep ∨ ∃ p, p ∈ pySplit sep s ∧ c ∈ p := by
  intro s
  induction s with
  | nil => intro h; cases h
  | cons d t ih =>
    intro h
    rcases List.mem_cons.mp h with rfl | hmem
    · by_cases hd : c = sep
      · exact Or.inl hd
      · refine Or.inr ?_
        simp only [pySplit]
        rw [if_neg hd]
        rcases hr : pySplit sep t with _ | ⟨p0, ps⟩
        · exact absurd hr (pySplit_ne_nil sep t)
        · exact ⟨c :: p0, List.mem_cons_self _ _, List.mem_cons_self _ _⟩
    · rcases ih hmem with hc | ⟨p, hp, hcp⟩
      · exact Or.inl hc
      · refine Or.inr ?_
        simp only [pySplit]
        by_cases hd : d = sep
        · rw [if_pos hd]
          exact ⟨p, List.mem_cons_of_mem _ hp, hcp⟩
        · rw [if_neg hd]
          rcases hr : pySplit sep t with _ | ⟨p0, ps⟩
          · exact absurd hr (pySplit_ne_nil sep t)
          · rw [hr] at hp
            rcases List.mem_cons.mp hp with rfl | hps
            · exact ⟨d :: p, List.mem_cons_self _ _, List.mem_cons_of_mem _ hcp⟩
            · exact ⟨p, List.mem_cons_of_mem _ hps, hcp⟩

theorem mem_of_pySplit_length (sep : Char) {s : Str}
    (h : 2 ≤ (pySplit sep s).length) : sep ∈ s := by
  by_contra hs
  rw [pySplit_eq_single hs] at h
  simp at h

theorem parseOctetOk_digits {s : Str} (h : parseOctetOk s = true) :
    s ≠ [] ∧ ∀ c ∈ s, c.isDigit = true := by
  unfold parseOctetOk at h
  split_ifs at h with h1 h2 h3 h4
  exact ⟨h1, fun c hc => List.all_eq_true.mp h2 c hc⟩

/-- A syntactically valid IPv4 literal passes `_is_plausible_host` (its
characters are digits and dots, and it contains a dot). -/
theorem is_ipv4_plausible {h : Str} (h4 : is_ipv4 h = true) :
    _is_plausible_host h = true := by
  unfold is_ipv4 at h4
  split at h4
  case h_2 => exact absurd h4 (by simp)
  case h_1 a b c d heq =>
    simp only [Bool.and_eq_true] at h4
    obtain ⟨⟨⟨ha, hb⟩, hc⟩, hd⟩ := h4
    have hchars : ∀ x ∈ h, x = '.' ∨ x.isDigit = true := by
      intro x hx
      rcases mem_pySplit_of_mem '.' hx with hdot | ⟨p, hp, hxp⟩
      · exact Or.inl hdot
      · rw [heq] at hp
        refine Or.inr ?_
        simp only [List.mem_cons, List.not_mem_nil, or_false] at hp
        rcases hp with rfl | rfl | rfl | rfl
        · exact (parseOctetOk_digits ha).2 x hxp
        · exact (parseOctetOk_digits hb).2 x hxp
        · exact (parseOctetOk_digits hc).2 x hxp
        · exact (parseOctetOk_digits hd).2 x hxp
    have hne : h ≠ [] := by
      intro hnil
      rw [hnil] at heq
      simp [pySplit] at heq
    have hdot : '.' ∈ h := by
      refine mem_of_pySplit_length '.' ?_
      rw [heq]; simp
    have hnospace : ¬ ' ' ∈ h := by
      intro hsp
      rcases hchars ' ' hsp with h1 | h1 <;> simp [Char.isDigit] at h1
    have hre : _HOST_RE_matches h = true := by
      unfold _HOST_RE_matches
      refine Bool.or_eq_true_iff.mpr (Or.inl ?_)
      simp only [Bool.and_eq_true]
      refine ⟨by simpa using hne, List.all_eq_true.mpr ?_⟩
      intro x hx
      rcases hchars x hx with rfl | hdig
      · simp
      · simp [hdig]
    unfold _is_plausible_host
    rw [if_neg hne]
    rw [if_neg (by simpa using hnospace)]
    rw [if_neg (by simp [hre])]
    rw [if_neg (by simpa using hdot)]

/-- Claim C4 counterexample: `"::1"` is a syntactically valid IPv6 literal
(the source's own `_is_ip_host` accepts it), it is the parsed host of
`http://[::1]/`, and yet `analyze_url` returns the invalid-host sentinel for
that URL instead of firing the +70 IP rule: an IPv6 literal contains `:`,
which the host character class `[a-z0-9.-]+` rejects, so
`_is_plausible_host` is false. -/
theorem C4_counterexample :
    (urlparseM (_ensure_scheme (str "http://[::1]/"))).map
        (fun p => pyLower ((hostnameOf p.netloc).getD [])) = some (str "::1") ∧
    _is_ip_host (str "::1") = true ∧
    analyze_url (str "http://[::1]/")
      = urlSentinel (str "Invalid or unparseable URL") (str "http://[::1]/") :=
  ⟨rfl, rfl, rfl⟩

/-- Claim C4 (amended): for every URL whose parsed (lowercased) host is a
syntactically valid IPv4 literal, the host is plausible and the IP-host rule
fires, adding +70 with explanation
"Host is an IP address (common in phishing)" — such a URL never yields the
invalid-host sentinel.  (IPv6 literal hosts, by contrast, fail the host
character class and yield the sentinel, see the counterexample.) -/
theorem C4_ipv4_host_rule (url : Str) (p : ParseResult)
    (hp : urlparseM (_ensure_scheme url) = some p)
    (h4 : is_ipv4 (pyLower ((hostnameOf p.netloc).getD [])) = true) :
    _is_plausible_host (pyLower ((hostnameOf p.netloc).getD [])) = true ∧
    (analyze_url url).host = some (pyLower ((hostnameOf p.netloc).getD [])) ∧
    rule_ip (pyLower ((hostnameOf p.netloc).getD []))
      = (70, [str "Host is an IP address (common in phishing)"]) ∧
    (analyze_url url).explanations.head?
      = some (str "Host is an IP address (common in phishing)") ∧
    70 ≤ (analyze_url url).score := by
  set host := pyLower ((hostnameOf p.netloc).getD []) with hhostdef
  have hplaus := is_ipv4_plausible h4
  have hne : host ≠ [] := by
    intro h0
    rw [h0] at h4
    simp [is_ipv4, pySplit] at h4
  have hiphost : _is_ip_host host = true := by
    unfold _is_ip_host
    rw [h4]
    rfl
  have hip : rule_ip host = (70, [str "Host is an IP address (common in phishing)"]) := by
    unfold rule_ip
    rw [hiphost]
    rfl
  have hmain : analyze_url url = analyzeMain (_ensure_scheme url) host (pyLower p.path) := by
    simp only [analyze_url]
    rw [hp]
    dsimp only
    rw [if_neg hne, if_neg (by simp [hplaus])]
  refine ⟨hplaus, ?_, hip, ?_, ?_⟩
  · rw [hmain]
    simp only [analyzeMain]
  · rw [hmain]
    simp only [analyzeMain]
    rw [hip]
    simp
  · rw [hmain]
    have h2 := rule_tld_fst host
    have h3 := rule_subdomains_fst host
    have h4' := rule_typosquat_fst host
    have h5 := rule_path_fst (pyLower p.path)
    simp only [analyzeMain]
    rw [hip]
    dsimp only
    rw [Int.min_def]
    split_ifs <;> omega

/-- Witness for the amended C4 at `http://192.168.0.1/`. -/
theorem C4_ipv4_host_rule_witness :
    _is_plausible_host (str "192.168.0.1") = true ∧
    (analyze_url (str "http://192.168.0.1/")).host = some (str "192.168.0.1") ∧
    rule_ip (str "192.168.0.1")
      = (70, [str "Host is an IP address (common in phishing)"]) ∧
    (analyze_url (str "http://192.168.0.1/")).explanations.head?
      = some (str "Host is an IP address (common in phishing)") ∧
    70 ≤ (analyze_url (str "http://192.168.0.1/")).score :=
  C4_ipv4_host_rule (str "http://192.168.0.1/")
    { scheme := str "http", netloc := str "192.168.0.1", path := str "/", query := [] }
    rfl rfl

theorem path_keywords_ne_nil : ∀ kw ∈ SUSPICIOUS_PATH_KEYWORDS, kw ≠ [] := by decide

theorem strContains_nil {needle : Str} (h : needle ≠ []) :
    strContains [] needle = false := by
  cases needle with
  | nil => exact absurd rfl h
  | cons a t => simp [strContains, List.isPrefixOf]

/-- Claim C8: whenever the (lowercased) path contains at least one
suspicious keyword, the path rule fires exactly once — it contributes
exactly +30 and exactly one explanation of the form
"Suspicious path keyword: \x27kw\x27" for a single matching keyword, no
matter how many distinct keywords occur; accordingly, in the rule
accumulation of `analyze_url`, the explanation list gains exactly one entry
from this rule. -/
theorem C8_path_keyword_fires_once (path : Str)
    (hkw : ∃ kw ∈ SUSPICIOUS_PATH_KEYWORDS, strContains path kw = true) :
    (rule_path path).1 = 30 ∧ (rule_path path).2.length = 1 ∧
    (∃ kw ∈ SUSPICIOUS_PATH_KEYWORDS, strContains path kw = true ∧
      (rule_path path).2 = [str "Suspicious path keyword: \x27" ++ kw ++ str "\x27"]) ∧
    ∀ n host, (analyzeMain n host path).explanations.length
      = (rule_ip host).2.length + (rule_tld host).2.length
        + (rule_subdomains host).2.length + (rule_typosquat host).2.length + 1 := by
  obtain ⟨kw0, hkw0mem, hkw0⟩ := hkw
  have hne : path ≠ [] := by
    intro h0
    rw [h0] at hkw0
    rw [strContains_nil (path_keywords_ne_nil kw0 hkw0mem)] at hkw0
    cases hkw0
  have hsome : (SUSPICIOUS_PATH_KEYWORDS.find? (fun kw => strContains path kw)).isSome :=
    List.find?_isSome.mpr ⟨kw0, hkw0mem, hkw0⟩
  obtain ⟨kw1, hfind⟩ := Option.isSome_iff_exists.mp hsome
  have hrp : rule_path path
      = (30, [str "Suspicious path keyword: \x27" ++ kw1 ++ str "\x27"]) := by
    unfold rule_path
    rw [if_neg hne, hfind]
  refine ⟨by rw [hrp], by rw [hrp]; rfl, ?_, ?_⟩
  · exact ⟨kw1, List.mem_of_find?_eq_some hfind, List.find?_some hfind, by rw [hrp]⟩
  · intro n host
    simp only [analyzeMain]
    rw [hrp]
    dsimp only
    rw [if_neg (by simp)]
    simp [List.length_append]
    omega

/-- Witness for C8 at path `/login` (with an arbitrary concrete host for the
accumulation conjunct). -/
theorem C8_path_keyword_fires_once_witness :
    (rule_path (str "/login")).1 = 30 ∧ (rule_path (str "/login")).2.length = 1 ∧
    (∃ kw ∈ SUSPICIOUS_PATH_KEYWORDS, strContains (str "/login") kw = true ∧
      (rule_path (str "/login")).2 = [str "Suspicious path keyword: \x27" ++ kw ++ str "\x27"]) ∧
    (analyzeMain (str "https://example.com/login") (str "example.com")
        (str "/login")).explanations.length
      = (rule_ip (str "example.com")).2.length + (rule_tld (str "example.com")).2.length
        + (rule_subdomains (str "example.com")).2.length
        + (rule_typosquat (str "example.com")).2.length + 1 := by
  obtain ⟨a, b, c, d⟩ := C8_path_keyword_fires_once (str "/login") (by decide)
  exact ⟨a, b, c, d _ _⟩

/-- Claim C5: `analyze_sender` on display name "IT Support", address
`it-support@gmail.com` and reply-to `helpdesk@company.com` fires exactly the
`reply_to_mismatch` and `free_mail_provider` rules, in that order, giving
score 55 = 40 + 15 and final category SUSPICIOUS (not DANGEROUS, since
55 < 60). -/
theorem C5_sender_example :
    (str "reply_to_mismatch") ∈ (analyze_sender (some (str "IT Support"))
        (some (str "it-support@gmail.com")) [str "helpdesk@company.com"]).signals ∧
    (str "free_mail_provider") ∈ (analyze_sender (some (str "IT Support"))
        (some (str "it-support@gmail.com")) [str "helpdesk@company.com"]).signals ∧
    (analyze_sender (some (str "IT Support")) (some (str "it-support@gmail.com"))
        [str "helpdesk@company.com"]).signals
      = [str "reply_to_mismatch", str "free_mail_provider"] ∧
    (analyze_sender (some (str "IT Support")) (some (str "it-support@gmail.com"))
        [str "helpdesk@company.com"]).score = 55 ∧
    40 ≤ (analyze_sender (some (str "IT Support")) (some (str "it-support@gmail.com"))
        [str "helpdesk@company.com"]).score ∧
    (analyze_sender (some (str "IT Support")) (some (str "it-support@gmail.com"))
        [str "helpdesk@company.com"]).risk_category = str "SUSPICIOUS" := by
  refine ⟨?_, ?_, ?_, ?_, ?_, ?_⟩ <;> decide

/-- The fixed rule order of the sender evaluator's signal identifiers. -/
def SENDER_SIGNAL_ORDER : List Str :=
  [str "reply_to_mismatch", str "free_mail_provider",
   str "display_name_domain_mismatch", str "punycode_domain",
   str "lookalike_domain"]

/-- The fixed (signal, explanation) pairs appended by each sender rule, in
rule order. -/
def SENDER_RULE_TABLE : List (Str × Str) :=
  [(str "reply_to_mismatch", str "Reply-To domain does not match From domain."),
   (str "free_mail_provider",
    str "Sender uses a free email provider for an organizational-looking display name."),
   (str "display_name_domain_mismatch",
    str "Display name suggests a brand/organization that doesn\x27t match the sender domain."),
   (str "punycode_domain",
    str "Sender domain contains punycode (xn--), which is sometimes used for lookalike domains."),
   (str "lookalike_domain",
    str "Sender domain appears to be a lookalike of a well-known brand.")]

/-- Claim C10: for every input, the verdict of `analyze_sender` has signal
and explanation lists of equal length whose i-th entries come from the same
rule (their zip is a sublist of the fixed rule table), and the signal list
is a subsequence of the fixed rule order — hence free of duplicates. -/
theorem C10_sender_signal_invariants (from_name from_email : Option Str)
    (reply_to_emails : List Str) :
    (analyze_sender from_name from_email reply_to_emails).signals.length
      = (analyze_sender from_name from_email reply_to_emails).explanations.length ∧
    ((analyze_sender from_name from_email reply_to_emails).signals.zip
        (analyze_sender from_name from_email reply_to_emails).explanations).Sublist
      SENDER_RULE_TABLE ∧
    (analyze_sender from_name from_email reply_to_emails).signals.Sublist
      SENDER_SIGNAL_ORDER ∧
    (analyze_sender from_name from_email reply_to_emails).signals.Nodup := by
  simp only [analyze_sender, sender_rule_reply_to, sender_rule_free_mail,
    sender_rule_brand_mismatch, sender_rule_punycode, sender_rule_lookalike]
  repeat' split
  all_goals decide

/-! ### Aggregator lemmas -/

theorem stepAgg_highest (acc : LinkAgg) (l : EmailLinkOut) :
    (stepAgg acc l).highest = max acc.highest l.score := by
  simp only [stepAgg]
  split_ifs <;> simp only [] <;> rw [Int.max_def] <;> split_ifs <;> omega

theorem stepAgg_risky (acc : LinkAgg) (l : EmailLinkOut) :
    (stepAgg acc l).risky = acc.risky
      + (if (l.risk_category = str "DANGEROUS" ∨ l.risk_category = str "SUSPICIOUS")
          then 1 else 0) := by
  simp only [stepAgg]
  split_ifs <;> simp_all

theorem stepAgg_dangerous (acc : LinkAgg) (l : EmailLinkOut) :
    (stepAgg acc l).dangerous = acc.dangerous
      + (if l.risk_category = str "DANGEROUS" then 1 else 0) := by
  simp only [stepAgg]
  split_ifs <;> simp_all

/-- The per-link loop accumulator, expressed as a max-fold and two counts. -/
theorem foldl_stepAgg_fields (L : List EmailLinkOut) : ∀ acc : LinkAgg,
    (L.foldl stepAgg acc).highest = L.foldl (fun a l => max a l.score) acc.highest ∧
    (L.foldl stepAgg acc).risky = acc.risky
      + L.countP (fun l => decide (l.risk_category = str "DANGEROUS"
          ∨ l.risk_category = str "SUSPICIOUS")) ∧
    (L.foldl stepAgg acc).dangerous = acc.dangerous
      + L.countP (fun l => decide (l.risk_category = str "DANGEROUS")) := by
  induction L with
  | nil => intro acc; simp
  | cons l L ih =>
    intro acc
    simp only [List.foldl_cons, List.countP_cons]
    obtain ⟨ih1, ih2, ih3⟩ := ih (stepAgg acc l)
    refine ⟨?_, ?_, ?_⟩
    · rw [ih1, stepAgg_highest]
    · rw [ih2, stepAgg_risky]
      split_ifs <;> simp_all <;> omega
    · rw [ih3, stepAgg_dangerous]
      split_ifs <;> simp_all <;> omega

theorem aggLinks_highest (L : List EmailLinkOut) :
    (aggLinks L).highest = L.foldl (fun a l => max a l.score) 0 :=
  (foldl_stepAgg_fields L _).1

/-- Claim C2: whenever the email endpoint returns a verdict, its overall
score is `max(sender.score, max of link scores with default 0)`, and both
`category` and `risk_category` are recomputed from that overall score via
the shared thresholds — not taken as a maximum of categories. -/
theorem C2_overall_score_and_category (payload : AnalyzeEmailIn) (out : EmailOut)
    (h : analyze_email payload = .ok out) :
    out.links ≠ [] ∧
    out.score = max out.sender.score ((out.links.map EmailLinkOut.score).foldl max 0) ∧
    out.risk_category = risk_category_from_score out.score ∧
    out.category = out.risk_category := by
  simp only [analyze_email] at h
  split at h
  · exact absurd h (by simp)
  split at h
  · exact absurd h (by simp)
  next h1 =>
  obtain rfl : _ = out := (Except.ok.injEq _ _).mp h
  refine ⟨h1, ?_, ?_, rfl⟩
  · simp only
    rw [aggLinks_highest, List.foldl_map]
  · rfl

/-- A default output used only to read the payload of an `ok` result. -/
def emailOutDefault : EmailOut :=
  { category := [], score := 0, explanation := [], risk_category := [],
    explanations := [],
    sender := { score := 0, risk_category := [], explanations := [], signals := [] },
    links := [] }

/-- Extract the `ok` payload of an endpoint result, with a default. -/
def okOr (d : EmailOut) : Except HttpError EmailOut → EmailOut
  | .ok o => o
  | .error _ => d

/-- The payload used to witness C2. -/
def wPayloadC2 : AnalyzeEmailIn := { links := [str "http://192.168.0.1/login"] }

/-- Witness for C2 on a one-link payload whose link scores 100. -/
theorem C2_overall_score_and_category_witness :
    (okOr emailOutDefault (analyze_email wPayloadC2)).links ≠ [] ∧
    (okOr emailOutDefault (analyze_email wPayloadC2)).score
      = max (okOr emailOutDefault (analyze_email wPayloadC2)).sender.score
        (((okOr emailOutDefault (analyze_email wPayloadC2)).links.map
            EmailLinkOut.score).foldl max 0) ∧
    (okOr emailOutDefault (analyze_email wPayloadC2)).risk_category
      = risk_category_from_score (okOr emailOutDefault (analyze_email wPayloadC2)).score ∧
    (okOr emailOutDefault (analyze_email wPayloadC2)).category
      = (okOr emailOutDefault (analyze_email wPayloadC2)).risk_category :=
  C2_overall_score_and_category wPayloadC2
    (okOr emailOutDefault (analyze_email wPayloadC2)) rfl

/-- The overall score of an endpoint result, `none` on a validation error. -/
def exceptScore : Except HttpError EmailOut → Option Int
  | .ok o => some o.score
  | .error _ => none

/-- The overall category of an endpoint result, `none` on a validation error. -/
def exceptRC : Except HttpError EmailOut → Option Str
  | .ok o => some o.risk_category
  | .error _ => none

theorem foldl_max_perm {L1 L2 : List EmailLinkOut} (h : L1.Perm L2) :
    ∀ a : Int, L1.foldl (fun a l => max a l.score) a
      = L2.foldl (fun a l => max a l.score) a := by
  induction h with
  | nil => intro a; rfl
  | cons x _ ih => intro a; simp only [List.foldl_cons]; exact ih _
  | swap x y l =>
    intro a
    simp only [List.foldl_cons]
    congr 1
    simp only [Int.max_def]
    split_ifs <;> omega
  | trans _ _ ih1 ih2 => intro a; rw [ih1, ih2]

/-- Claim C6: permuting the input link list changes neither the overall
score nor the overall category of the email endpoint (and an input
validation error occurs for one ordering exactly when it occurs for the
other); only the per-link result order can change. -/
theorem C6_link_order_irrelevant (payload : AnalyzeEmailIn) (links2 : List Str)
    (hperm : payload.links.Perm links2) :
    exceptScore (analyze_email payload)
      = exceptScore (analyze_email { payload with links := links2 }) ∧
    exceptRC (analyze_email payload)
      = exceptRC (analyze_email { payload with links := links2 }) := by
  have hf : (payload.links.filterMap (fun raw =>
        if pyStrip raw = [] then none else some (buildLinkOut (pyStrip raw)))).Perm
      (links2.filterMap (fun raw =>
        if pyStrip raw = [] then none else some (buildLinkOut (pyStrip raw)))) :=
    hperm.filterMap _
  have hlen := hperm.length_eq
  simp only [analyze_email]
  by_cases hz : payload.links.length = 0
  · rw [if_pos hz, if_pos (by omega : links2.length = 0)]
    exact ⟨rfl, rfl⟩
  · rw [if_neg hz, if_neg (by omega : ¬ links2.length = 0)]
    by_cases hpe : payload.links.filterMap (fun raw =>
        if pyStrip raw = [] then none else some (buildLinkOut (pyStrip raw))) = []
    · have hpe2 : links2.filterMap (fun raw =>
          if pyStrip raw = [] then none else some (buildLinkOut (pyStrip raw))) = [] :=
        (hpe ▸ hf).symm.eq_nil
      rw [if_pos hpe, if_pos hpe2]
      exact ⟨rfl, rfl⟩
    · have hpe2 : ¬ links2.filterMap (fun raw =>
          if pyStrip raw = [] then none else some (buildLinkOut (pyStrip raw))) = [] :=
        fun h2 => hpe (h2 ▸ hf).eq_nil
      rw [if_neg hpe, if_neg hpe2]
      have hhigh : (aggLinks (payload.links.filterMap (fun raw =>
            if pyStrip raw = [] then none else some (buildLinkOut (pyStrip raw))))).highest
          = (aggLinks (links2.filterMap (fun raw =>
            if pyStrip raw = [] then none else some (buildLinkOut (pyStrip raw))))).highest := by
        rw [aggLinks_highest, aggLinks_highest]
        exact foldl_max_perm hf 0
      constructor
      · simp only [exceptScore]
        rw [hhigh]
      · simp only [exceptRC]
        rw [hhigh]

/-- Witness for C6: swapping two concrete links preserves the overall
score and category. -/
theorem C6_link_order_irrelevant_witness :
    exceptScore (analyze_email
        { links := [str "https://example.zip", str "http://1.2.3.4/x"] })
      = exceptScore (analyze_email
        { links := [str "http://1.2.3.4/x", str "https://example.zip"] }) ∧
    exceptRC (analyze_email
        { links := [str "https://example.zip", str "http://1.2.3.4/x"] })
      = exceptRC (analyze_email
        { links := [str "http://1.2.3.4/x", str "https://example.zip"] }) :=
  C6_link_order_irrelevant
    { links := [str "https://example.zip", str "http://1.2.3.4/x"] }
    [str "http://1.2.3.4/x", str "https://example.zip"]
    (List.Perm.swap _ _ _)

/-- Claim C7 counterexample: the claim as stated is false — `" "` is a
non-empty link string, yet the endpoint raises the explicit 400 validation
error for `links = [" "]`, because links are stripped before the emptiness
test and a whitespace-only link is skipped. -/
theorem C7_counterexample :
    (str " ") ≠ ([] : Str) ∧
    analyze_email { links := [str " "] } = .error emailErrNoUsable :=
  ⟨by decide, rfl⟩

/-- Claim C7 (amended): the email endpoint raises an explicit validation
error (an `HTTPException`, distinct from any degraded verdict) exactly when
every input link string is empty after stripping whitespace (including the
empty-list case); when at least one link is non-empty after stripping, a
well-formed verdict is always returned. -/
theorem C7_error_iff_all_blank (payload : AnalyzeEmailIn) :
    ((∀ l ∈ payload.links, pyStrip l = []) →
      analyze_email payload = .error emailErrNoLinks ∨
      analyze_email payload = .error emailErrNoUsable) ∧
    ((∃ l ∈ payload.links, pyStrip l ≠ []) →
      ∀ e, analyze_email payload ≠ .error e) := by
  constructor
  · intro hall
    simp only [analyze_email]
    split_ifs with h0 h1
    · exact Or.inl rfl
    · exact Or.inr rfl
    · exfalso
      apply h1
      rw [List.filterMap_eq_nil_iff]
      intro a ha
      rw [if_pos (hall a ha)]
  · rintro ⟨l0, hl0, hl0ne⟩ e
    simp only [analyze_email]
    have h0 : ¬ payload.links.length = 0 := by
      intro hz
      rw [List.length_eq_zero] at hz
      rw [hz] at hl0
      cases hl0
    rw [if_neg h0]
    have h1 : ¬ payload.links.filterMap (fun raw =>
        if pyStrip raw = [] then none else some (buildLinkOut (pyStrip raw))) = [] := by
      rw [List.filterMap_eq_nil_iff]
      intro hnil
      have := hnil l0 hl0
      rw [if_neg hl0ne] at this
      cases this
    rw [if_neg h1]
    intro hcontr
    cases hcontr

/-- Witness for the amended C7: a whitespace-only list errors, a list with a
usable link never errors. -/
theorem C7_error_iff_all_blank_witness :
    (analyze_email { links := [str " "] } = .error emailErrNoLinks ∨
      analyze_email { links := [str " "] } = .error emailErrNoUsable) ∧
    (∀ e, analyze_email { links := [str "example.com"] } ≠ .error e) :=
  ⟨(C7_error_iff_all_blank { links := [str " "] }).1 (by decide),
   (C7_error_iff_all_blank { links := [str "example.com"] }).2
     ⟨str "example.com", by decide, by decide⟩⟩

/-- Claim C9: the overall explanations list built by the aggregator always
has exactly one entry (the synthesized link summary) when the sender has no
explanations, and exactly two entries (the sender's first explanation, then
the summary) otherwise; the `[:3]` truncation therefore never removes
anything, and the empty-explanations fallback branch is unreachable (the
built list always equals the pre-fallback list `overallExplanationsRaw`).
The endpoint's returned `explanations` field is exactly this list. -/
theorem C9_overall_explanations_shape (se : List Str) (risky dangerous : Nat) :
    overallExplanations se risky dangerous = overallExplanationsRaw se risky dangerous ∧
    (overallExplanations se risky dangerous).length = (if se = [] then 1 else 2) ∧
    (overallExplanations se risky dangerous).dropLast = se.take 1 ∧
    (overallExplanations se risky dangerous).getLast?
      = some (linkSummarySentence risky dangerous) ∧
    (overallExplanations se risky dangerous).take 3
      = overallExplanations se risky dangerous ∧
    (∀ payload out, analyze_email payload = .ok out →
      out.explanations = overallExplanations out.sender.explanations
        (aggLinks out.links).risky (aggLinks out.links).dangerous) := by
  refine ⟨?_, ?_, ?_, ?_, ?_, ?_⟩
  · cases se <;> simp [overallExplanations, overallExplanationsRaw]
  · cases se <;> simp [overallExplanations, overallExplanationsRaw]
  · cases se <;> simp [overallExplanations, overallExplanationsRaw]
  · cases se <;> simp [overallExplanations, overallExplanationsRaw]
  · cases se <;> simp [overallExplanations, overallExplanationsRaw]
  · intro payload out h
    simp only [analyze_email] at h
    split at h
    · exact absurd h (by simp)
    split at h
    · exact absurd h (by simp)
    obtain rfl : _ = out := (Except.ok.injEq _ _).mp h
    simp only
    generalize (analyze_sender payload.from_name payload.from_email
        (payload.reply_to_emails.getD [])).explanations = sexp
    generalize aggLinks (payload.links.filterMap (fun raw =>
        if pyStrip raw = [] then none else some (buildLinkOut (pyStrip raw)))) = agg
    cases hsx : sexp <;> simp [overallExplanations, overallExplanationsRaw]

/-- Witness for C9, discharging the endpoint conjunct at a concrete payload. -/
theorem C9_overall_explanations_shape_witness :
    overallExplanations [str "E1", str "E2"] 2 1
      = overallExplanationsRaw [str "E1", str "E2"] 2 1 ∧
    (overallExplanations [str "E1", str "E2"] 2 1).length
      = (if ([str "E1", str "E2"] : List Str) = [] then 1 else 2) ∧
    (overallExplanations [str "E1", str "E2"] 2 1).dropLast
      = ([str "E1", str "E2"] : List Str).take 1 ∧
    (overallExplanations [str "E1", str "E2"] 2 1).getLast?
      = some (linkSummarySentence 2 1) ∧
    (overallExplanations [str "E1", str "E2"] 2 1).take 3
      = overallExplanations [str "E1", str "E2"] 2 1 ∧
    (okOr emailOutDefault (analyze_email { links := [str "https://a.example"] })).explanations
      = overallExplanations
        (okOr emailOutDefault (analyze_email { links := [str "https://a.example"] })).sender.explanations
        (aggLinks (okOr emailOutDefault
            (analyze_email { links := [str "https://a.example"] })).links).risky
        (aggLinks (okOr emailOutDefault
            (analyze_email { links := [str "https://a.example"] })).links).dangerous := by
  obtain ⟨a, b, c, d, e, f⟩ := C9_overall_explanations_shape [str "E1", str "E2"] 2 1
  exact ⟨a, b, c, d, e,
    f { links := [str "https://a.example"] }
      (okOr emailOutDefault (analyze_email { links := [str "https://a.example"] })) rfl⟩

end LinkGuard
